import Mathlib

/-!
Verification of the pomchat message store and git synchronization layer.

This file gives a shallow embedding of the repository's core operations:

* `src/git_sync.py` — `GitSyncManager.__init__`, `GitSyncManager.sync_message`
  and the git command sequence it issues.  The outcomes of the external git
  subprocess calls and of the file write are modelled by a `GitEnv` record of
  results, since they are environment effects; the control flow that consumes
  those outcomes is translated line by line from the source.
* `src/database.py` — `DatabaseManager.add_message`,
  `DatabaseManager.update_message_sync_status`, `DatabaseManager.get_messages`.
  The sqlite table is a list of `Message` rows plus the auto-increment counter;
  `datetime.now().isoformat()` values are modelled as `Nat` instants, which is
  order-isomorphic to the lexicographic order sqlite uses on the stored
  ISO-8601 text column (timestamps from one clock are strictly increasing in
  both orders).
* `src/server.py` — the transport-level validation in
  `MessageHandler.handle_new_message`.

Python's `str(n)` on a nonnegative integer is modelled by `natStr`, a decimal
rendering defined below.
-/

namespace PomChat

/-! ## Embedding of src/git_sync.py -/

/-- Result of one `git` subprocess invocation, as returned by
`GitSyncManager._run_git_command`: `(returncode, stdout, stderr)`. -/
structure GitCmdResult where
  returncode : Int
  stdout : String
  stderr : String
  deriving Repr, DecidableEq

/-- Environment outcomes for one `sync_message` call: whether the initial
file write (or timestamp parse) raises, and the results of the four git
subprocess invocations `add`, `commit`, `rev-parse HEAD`, `push`. -/
structure GitEnv where
  writeRaises : Bool
  addResult : GitCmdResult
  commitResult : GitCmdResult
  revParseResult : GitCmdResult
  pushResult : GitCmdResult
  deriving Repr, DecidableEq

/-- The value of `datetime.fromisoformat(message['timestamp'])`, to the
precision `strftime('%Y%m%d_%H%M%S')` observes. -/
structure PyDateTime where
  year : Nat
  month : Nat
  day : Nat
  hour : Nat
  minute : Nat
  second : Nat
  deriving Repr, DecidableEq

/-- The message dictionary handed to `GitSyncManager.sync_message` by
`DatabaseManager.add_message`: keys `id`, `content`, `timestamp`, `sender`,
`created_at`.  The `timestamp` field carries the parsed datetime. -/
structure SyncMessage where
  id : Nat
  content : String
  timestamp : PyDateTime
  sender : String
  created_at : Nat
  deriving Repr, DecidableEq

/-- Decimal digit character, code point `48 + d` for `d < 10`. -/
def digitChar (d : Nat) : Char := Char.ofNat (48 + d)

/-- Decimal digit string of a natural number, most significant digit first:
the character list of Python's `str(n)` for a nonnegative `int`. -/
def natDigits (n : Nat) : List Char :=
  if n < 10 then [digitChar n]
  else natDigits (n / 10) ++ [digitChar (n % 10)]
  termination_by n
  decreasing_by exact Nat.div_lt_self (by omega) (by omega)

/-- Python's `str(n)` for a nonnegative integer. -/
def natStr (n : Nat) : String := ⟨natDigits n⟩

/-- Zero-padded two-digit field of `strftime` (`%m`, `%d`, `%H`, `%M`, `%S`). -/
def pad2 (n : Nat) : String :=
  if n < 10 then ("0") ++ natStr n else natStr n

/-- Zero-padded four-digit year field of `strftime` (`%Y`). -/
def pad4 (n : Nat) : String :=
  if n < 10 then ("000") ++ natStr n
  else if n < 100 then ("00") ++ natStr n
  else if n < 1000 then ("0") ++ natStr n
  else natStr n

/-- `timestamp.strftime('%Y%m%d_%H%M%S')` from `sync_message`. -/
def strftimeYmdHms (t : PyDateTime) : String :=
  pad4 t.year ++ pad2 t.month ++ pad2 t.day ++ ("_") ++
    pad2 t.hour ++ pad2 t.minute ++ pad2 t.second

/-- The artifact filename built in `sync_message`:
`f"{timestamp.strftime('%Y%m%d_%H%M%S')}_{message['id']}.json"`. -/
def syncFilename (m : SyncMessage) : String :=
  strftimeYmdHms m.timestamp ++ ("_") ++ natStr m.id ++ (".json")

/-- `GitSyncManager.sync_message`: write the message file, stage it, commit,
read the commit hash, push; return the hash only if every step succeeded,
`none` otherwise (each failing subprocess returns early with `None`, and the
surrounding `try` turns any exception into `None` as well). -/
def sync_message (env : GitEnv) (_m : SyncMessage) : Option String :=
  if env.writeRaises then none
  else if env.addResult.returncode ≠ 0 then none
  else if env.commitResult.returncode ≠ 0 then none
  else if env.revParseResult.returncode ≠ 0 then none
  else if env.pushResult.returncode ≠ 0 then none
  else some env.revParseResult.stdout.trim

/-- The two environment values read by `GitSyncManager.__init__` via
`os.getenv`: `GITHUB_TOKEN` and `GITHUB_REPO` (`none` when unset). -/
structure DotEnv where
  github_token : Option String
  github_repo : Option String
  deriving Repr, DecidableEq

/-- Python truthiness test `not x` for an `Optional[str]`: true when the
variable is unset (`None`) or the empty string. -/
def pyFalsyStr : Option String → Bool
  | none => true
  | some s => s.isEmpty

/-- The state `GitSyncManager.__init__` establishes when it succeeds. -/
structure GitSyncManager where
  repo_path : String
  messages_dir : String
  github_token : String
  repo_name : String
  deriving Repr, DecidableEq

/-- `GitSyncManager.__init__`: load the two environment values, raise
`ValueError` when either is absent (or empty, both being falsy), otherwise
record the paths and credentials.  The check precedes any per-message work:
no operation of the manager exists before construction returns. -/
def gitSyncManagerInit (repo_path : String) (env : DotEnv) :
    Except String GitSyncManager :=
  if pyFalsyStr env.github_token || pyFalsyStr env.github_repo then
    Except.error ("GITHUB_TOKEN and GITHUB_REPO must be set in .env file")
  else
    Except.ok
      { repo_path := repo_path
        messages_dir := repo_path ++ ("/messages")
        github_token := env.github_token.getD ("")
        repo_name := env.github_repo.getD ("") }

/-- The git invocations `sync_message` issues for one message, in program
order: stage the artifact, commit with the attributed author, read `HEAD`,
push.  Each element is the argument list passed to `_run_git_command`. -/
def gitInvocations (messages_dir : String) (m : SyncMessage) : List (List String) :=
  [[("add"), messages_dir ++ ("/") ++ syncFilename m],
   [("commit"), ("-m"), ("Add message ") ++ natStr m.id ++ (" from ") ++ m.sender,
    ("--author"), m.sender ++ (" <") ++ m.sender ++ ("@example.com>")],
   [("rev-parse"), ("HEAD")],
   [("push")]]

/-- The invocation sequence of one `sync_message` call, each step tagged with
the id of the message it belongs to. -/
def taggedInvocations (messages_dir : String) (m : SyncMessage) :
    List (Nat × List String) :=
  (gitInvocations messages_dir m).map (fun c => (m.id, c))

/-- `Interleaving xs ys zs`: `zs` is an order-preserving merge of the two
step sequences `xs` and `ys`, i.e. one possible concurrent schedule of two
threads executing `xs` and `ys` with no synchronization between them. -/
inductive Interleaving {α : Type} : List α → List α → List α → Prop
  | nil : Interleaving [] [] []
  | cons_left {x : α} {xs ys zs : List α} :
      Interleaving xs ys zs → Interleaving (x :: xs) ys (x :: zs)
  | cons_right {y : α} {xs ys zs : List α} :
      Interleaving xs ys zs → Interleaving xs (y :: ys) (y :: zs)

/-! ## Embedding of src/database.py -/

/-- One row of the `messages` table. -/
structure Message where
  id : Nat
  content : String
  timestamp : Nat
  sender : String
  git_hash : Option String
  is_synchronized : Bool
  created_at : Nat
  updated_at : Option Nat
  deriving Repr, DecidableEq

/-- The `messages` table: rows in insertion order plus the sqlite
auto-increment counter for the `id` primary key. -/
structure DBState where
  nextId : Nat
  rows : List Message
  deriving Repr, DecidableEq

/-- The row written by the `INSERT INTO messages` statement of
`add_message`: `is_synchronized` is `FALSE` and `timestamp = created_at = now`
unconditionally; `git_hash` is the optional argument as passed. -/
def newRow (message_id : Nat) (content sender : String) (git_hash : Option String)
    (now : Nat) : Message :=
  { id := message_id
    content := content
    timestamp := now
    sender := sender
    git_hash := git_hash
    is_synchronized := false
    created_at := now
    updated_at := none }

/-- Effect of the `UPDATE messages SET git_hash = ?, is_synchronized = TRUE,
updated_at = ? WHERE id = ?` statement on a single row (shared by
`add_message` and `update_message_sync_status`, whose UPDATE sets the same
three columns). -/
def sqlUpdateSyncRow (message_id : Nat) (git_hash : String) (now : Nat)
    (r : Message) : Message :=
  if r.id = message_id then
    { r with git_hash := some git_hash, is_synchronized := true,
             updated_at := some now }
  else r

/-- `DatabaseManager.add_message`: insert the new row (unsynchronized), call
`GitSyncManager.sync_message` on the message dictionary, and if that returned
a commit hash, update the row with it; return the new id in both cases.  The
result of the external `sync_message` call is passed in as `syncResult`. -/
def add_message (σ : DBState) (content sender : String) (git_hash : Option String)
    (now : Nat) (syncResult : Option String) : DBState × Nat :=
  match syncResult with
  | some commit_hash =>
      ({ nextId := σ.nextId + 1
         rows := (σ.rows ++ [newRow σ.nextId content sender git_hash now]).map
           (sqlUpdateSyncRow σ.nextId commit_hash now) },
       σ.nextId)
  | none =>
      ({ nextId := σ.nextId + 1
         rows := σ.rows ++ [newRow σ.nextId content sender git_hash now] },
       σ.nextId)

/-- `DatabaseManager.update_message_sync_status`: run the UPDATE; rows whose
id does not match are untouched, and a missing id only logs a warning (the
`rowcount` check has no other effect). -/
def update_message_sync_status (σ : DBState) (message_id : Nat)
    (git_hash : String) (now : Nat) : DBState :=
  { σ with rows := σ.rows.map (sqlUpdateSyncRow message_id git_hash now) }

/-- Comparison used by `ORDER BY timestamp DESC`: `a` sorts no later than `b`
when `a`'s timestamp is at least `b`'s. -/
def tsDesc (a b : Message) : Prop := b.timestamp ≤ a.timestamp

instance : DecidableRel tsDesc :=
  fun a b => inferInstanceAs (Decidable (b.timestamp ≤ a.timestamp))

instance : IsTotal Message tsDesc := ⟨fun a b => le_total b.timestamp a.timestamp⟩

instance : IsTrans Message tsDesc := ⟨fun _ _ _ hab hbc => le_trans hbc hab⟩

/-- `DatabaseManager.get_messages`: `SELECT ... ORDER BY timestamp DESC
LIMIT ? OFFSET ?` — sort all rows by timestamp descending, skip `offset`
rows, return at most `limit`. -/
def get_messages (σ : DBState) (limit offset : Nat) : List Message :=
  ((σ.rows.insertionSort tsDesc).drop offset).take limit

/-- Data-model invariant from the spec: a synchronized row has a non-null
`git_hash`. -/
def syncInv (rows : List Message) : Prop :=
  ∀ r ∈ rows, r.is_synchronized = true → r.git_hash ≠ none

/-! ## Embedding of src/server.py (transport-level validation) -/

/-- One row of the `messages` table as `server.py` writes it. -/
structure ServerRow where
  id : Nat
  content : String
  timestamp : Nat
  sender : String
  deriving Repr, DecidableEq

/-- The table state seen by the server handler. -/
structure ServerDB where
  nextId : Nat
  rows : List ServerRow
  deriving Repr, DecidableEq

/-- Outcome of `MessageHandler.handle_new_message`. -/
inductive PostResult where
  | created
  | badRequest (msg : String)
  deriving Repr, DecidableEq

/-- `MessageHandler.handle_new_message` on an already-parsed JSON body:
`message_data.get(...)` yields `none` for a missing key, and the guard
`if not content or not sender` rejects missing and empty values with
`400 Bad Request` before any insert; otherwise the row is inserted. -/
def handle_new_message (db : ServerDB) (content sender : Option String)
    (now : Nat) : ServerDB × PostResult :=
  if pyFalsyStr content || pyFalsyStr sender then
    (db, PostResult.badRequest ("Missing required fields"))
  else
    ({ nextId := db.nextId + 1
       rows := db.rows ++
         [{ id := db.nextId
            content := content.getD ("")
            timestamp := now
            sender := sender.getD ("") }] },
     PostResult.created)

/-! ## Demonstration data for the concrete scenarios -/

/-- Empty messages table, auto-increment at its sqlite starting value. -/
def dbEmpty : DBState := { nextId := 1, rows := [] }

/-- Four inserts with strictly increasing timestamps and no successful
projection, as in the paging scenario of the spec. -/
def dbDemo : DBState :=
  (add_message
    (add_message
      (add_message
        (add_message dbEmpty ("m1") ("alice") none 1 none).1
        ("m2") ("bob") none 2 none).1
      ("m3") ("carol") none 3 none).1
    ("m4") ("dave") none 4 none).1

/-- First sample message for the interleaving scenario. -/
def msgA : SyncMessage :=
  { id := 1, content := ("hello"), timestamp := ⟨2024, 1, 1, 0, 0, 0⟩,
    sender := ("alice"), created_at := 1 }

/-- Second sample message for the interleaving scenario. -/
def msgB : SyncMessage :=
  { id := 2, content := ("world"), timestamp := ⟨2024, 1, 1, 0, 0, 0⟩,
    sender := ("bob"), created_at := 2 }

/-- Shared working-copy messages directory of the two concurrent calls. -/
def demoDir : String := ("/repo/messages")

/-- Step `i` of `msgA`'s tagged git sequence. -/
def stepA (i : Nat) : Nat × List String :=
  (taggedInvocations demoDir msgA).getD i (0, [])

/-- Step `i` of `msgB`'s tagged git sequence. -/
def stepB (i : Nat) : Nat × List String :=
  (taggedInvocations demoDir msgB).getD i (0, [])

/-! ## Helper lemmas -/

/-- Unfolding equation for `natDigits`. -/
theorem natDigits_eq (n : Nat) :
    natDigits n = if n < 10 then [digitChar n]
      else natDigits (n / 10) ++ [digitChar (n % 10)] := by
  rw [natDigits]

/-- Distinct decimal digits render as distinct characters. -/
theorem digitChar_inj : ∀ a < 10, ∀ b < 10, digitChar a = digitChar b → a = b := by
  decide

/-- A decimal rendering is never empty. -/
theorem natDigits_length_pos (n : Nat) : 0 < (natDigits n).length := by
  rw [natDigits_eq]
  split
  · simp
  · simp

/-- The decimal rendering of a natural number determines the number. -/
theorem natDigits_inj : ∀ a b : Nat, natDigits a = natDigits b → a = b := by
  intro a
  induction a using Nat.strong_induction_on with
  | _ a ih =>
    intro b h
    rw [natDigits_eq a, natDigits_eq b] at h
    by_cases ha : a < 10 <;> by_cases hb : b < 10
    · rw [if_pos ha, if_pos hb] at h
      exact digitChar_inj a ha b hb (by injection h)
    · rw [if_pos ha, if_neg hb] at h
      have hlen := congrArg List.length h
      have := natDigits_length_pos (b / 10)
      simp only [List.length_cons, List.length_nil, List.length_append] at hlen
      omega
    · rw [if_neg ha, if_pos hb] at h
      have hlen := congrArg List.length h
      have := natDigits_length_pos (a / 10)
      simp only [List.length_cons, List.length_nil, List.length_append] at hlen
      omega
    · rw [if_neg ha, if_neg hb] at h
      have hlen : (natDigits (a / 10)).length = (natDigits (b / 10)).length := by
        have := congrArg List.length h
        simp at this
        omega
      have h1 := List.append_inj_left h hlen
      have h2 := List.append_inj_right h hlen
      have hd : a / 10 = b / 10 :=
        ih (a / 10) (Nat.div_lt_self (by omega) (by omega)) _ h1
      have hm : a % 10 = b % 10 :=
        digitChar_inj (a % 10) (by omega) (b % 10) (by omega) (by injection h2)
      omega

/-- `str` is injective on nonnegative integers. -/
theorem natStr_inj (a b : Nat) (h : natStr a = natStr b) : a = b := by
  apply natDigits_inj
  injection h

/-- The sync UPDATE never changes a row's id. -/
theorem sqlUpdateSyncRow_id (message_id : Nat) (git_hash : String) (now : Nat)
    (r : Message) : (sqlUpdateSyncRow message_id git_hash now r).id = r.id := by
  unfold sqlUpdateSyncRow
  split <;> rfl

/-- The sync UPDATE never clears the synchronized flag. -/
theorem sqlUpdateSyncRow_mono (message_id : Nat) (git_hash : String) (now : Nat)
    (r : Message) (h : r.is_synchronized = true) :
    (sqlUpdateSyncRow message_id git_hash now r).is_synchronized = true := by
  unfold sqlUpdateSyncRow
  split <;> simp [h]

/-- The sync UPDATE preserves "synchronized implies non-null hash" on a row. -/
theorem sqlUpdateSyncRow_inv (message_id : Nat) (git_hash : String) (now : Nat)
    (r : Message) (h : r.is_synchronized = true → r.git_hash ≠ none) :
    (sqlUpdateSyncRow message_id git_hash now r).is_synchronized = true →
      (sqlUpdateSyncRow message_id git_hash now r).git_hash ≠ none := by
  unfold sqlUpdateSyncRow
  split
  · intro
    simp
  · exact h

/-- When no row matches the id, the sync UPDATE leaves the table untouched. -/
theorem map_sqlUpdateSyncRow_no_match (message_id : Nat) (git_hash : String)
    (now : Nat) : ∀ l : List Message, (∀ r ∈ l, r.id ≠ message_id) →
      l.map (sqlUpdateSyncRow message_id git_hash now) = l := by
  intro l h
  induction l with
  | nil => rfl
  | cons r rs ihr =>
    simp only [List.map_cons]
    rw [ihr (fun x hx => h x (List.mem_cons_of_mem _ hx))]
    simp [sqlUpdateSyncRow, h r (List.mem_cons_self _ _)]

/-! ## Claim theorems -/

/-- C1: for every message and every outcome of the external steps,
`sync_message` returns `none` (rather than raising) whenever any step of the
write-file/stage/commit/push sequence fails; in particular a push failure
after a successful local commit still yields `none`.  (`sync_message` is a
total Lean function into `Option`, so no exception escapes.) -/
theorem sync_message_none_on_any_failure (env : GitEnv) (m : SyncMessage)
    (h : env.writeRaises = true ∨ env.addResult.returncode ≠ 0 ∨
      env.commitResult.returncode ≠ 0 ∨ env.revParseResult.returncode ≠ 0 ∨
      env.pushResult.returncode ≠ 0) :
    sync_message env m = none := by
  unfold sync_message
  rcases h with h | h | h | h | h <;> simp [h]

/-- Witness for C1: the push fails with exit code 1 after staging, commit and
`rev-parse` all succeeded, and the result is still `none`. -/
theorem sync_message_none_on_any_failure_witness :
    sync_message
      { writeRaises := false
        addResult := { returncode := 0, stdout := (""), stderr := ("") }
        commitResult := { returncode := 0, stdout := (""), stderr := ("") }
        revParseResult := { returncode := 0, stdout := ("c0ffee"), stderr := ("") }
        pushResult := { returncode := 1, stdout := (""), stderr := ("rejected") } }
      msgA = none :=
  sync_message_none_on_any_failure _ msgA (by decide)

/-- C8: constructing the manager fails with the configuration error whenever
`GITHUB_TOKEN` or `GITHUB_REPO` is absent, and succeeds (the check being the
first thing construction does, before any per-request work can exist)
whenever both are present and non-empty. -/
theorem git_sync_manager_requires_config (repo_path : String) (env : DotEnv) :
    ((env.github_token = none ∨ env.github_repo = none) →
      gitSyncManagerInit repo_path env
        = Except.error ("GITHUB_TOKEN and GITHUB_REPO must be set in .env file")) ∧
    (∀ tok repo, env.github_token = some tok → tok ≠ ("") →
      env.github_repo = some repo → repo ≠ ("") →
      gitSyncManagerInit repo_path env = Except.ok
        { repo_path := repo_path
          messages_dir := repo_path ++ ("/messages")
          github_token := tok
          repo_name := repo }) := by
  constructor
  · intro h
    unfold gitSyncManagerInit
    rcases h with h | h <;> simp [h, pyFalsyStr]
  · intro tok repo htok htokne hrepo hrepone
    unfold gitSyncManagerInit
    rw [htok, hrepo]
    simp [pyFalsyStr, String.isEmpty_iff, htokne, hrepone]

/-- Witness for C8: with the token unset, construction returns the error. -/
theorem git_sync_manager_requires_config_witness :
    gitSyncManagerInit ("/repo") { github_token := none, github_repo := some ("r") }
      = Except.error ("GITHUB_TOKEN and GITHUB_REPO must be set in .env file") :=
  (git_sync_manager_requires_config ("/repo")
    { github_token := none, github_repo := some ("r") }).1 (Or.inl rfl)

/-- C2: for every non-empty content and sender, `add_message` returns the
newly assigned id in both projection outcomes and raises no error (it is a
total function): if the sync call returned a commit hash the stored row ends
synchronized with that hash as `git_hash`, and if it returned `none` the
unsynchronized row with null `git_hash` is still stored. -/
theorem add_message_returns_id_both_outcomes (σ : DBState)
    (content sender : String) (now : Nat) (syncResult : Option String)
    (_hc : content ≠ ("")) (_hs : sender ≠ ("")) :
    (add_message σ content sender none now syncResult).2 = σ.nextId ∧
    (∀ h, syncResult = some h →
      ({ newRow σ.nextId content sender none now with
          git_hash := some h, is_synchronized := true,
          updated_at := some now } : Message)
        ∈ (add_message σ content sender none now syncResult).1.rows) ∧
    (syncResult = none →
      newRow σ.nextId content sender none now
        ∈ (add_message σ content sender none now syncResult).1.rows) := by
  refine ⟨?_, ?_, ?_⟩
  · cases syncResult <;> rfl
  · intro h hh
    subst hh
    simp only [add_message]
    refine List.mem_map.mpr ⟨newRow σ.nextId content sender none now, ?_, ?_⟩
    · simp
    · simp [sqlUpdateSyncRow, newRow]
  · intro hh
    subst hh
    simp [add_message]

/-- Witness for C2: a concrete submit against the empty store with a
successful projection returns id 1, and the synchronized row is stored. -/
theorem add_message_returns_id_both_outcomes_witness :
    (add_message dbEmpty ("hi") ("alice") none 5 (some ("c0ffee"))).2 = 1 ∧
    ({ newRow 1 ("hi") ("alice") none 5 with
        git_hash := some ("c0ffee"), is_synchronized := true,
        updated_at := some 5 } : Message)
      ∈ (add_message dbEmpty ("hi") ("alice") none 5 (some ("c0ffee"))).1.rows :=
  ⟨(add_message_returns_id_both_outcomes dbEmpty ("hi") ("alice") 5
      (some ("c0ffee")) (by decide) (by decide)).1,
   (add_message_returns_id_both_outcomes dbEmpty ("hi") ("alice") 5
      (some ("c0ffee")) (by decide) (by decide)).2.1 ("c0ffee") rfl⟩

/-- C3 counterexample: `DatabaseManager.add_message` performs no emptiness
validation: called with empty content and sender on the empty store it does
not fail, returns id 1, and the message count grows from 0 to 1 — a row is
created, contrary to the claim. -/
theorem add_message_empty_input_inserts_row :
    (add_message dbEmpty ("") ("") none 0 none).1.rows
      = [newRow 1 ("") ("") none 0] ∧
    (add_message dbEmpty ("") ("") none 0 none).2 = 1 ∧
    dbEmpty.rows.length = 0 ∧
    (add_message dbEmpty ("") ("") none 0 none).1.rows.length = 1 :=
  ⟨rfl, rfl, rfl, rfl⟩

/-- C3 (amended): emptiness validation lives in the transport layer, not in
`add_message`: `MessageHandler.handle_new_message` rejects any request whose
content or sender is missing or empty with `400 Bad Request` and creates no
row, while `add_message` itself accepts empty strings. -/
theorem handle_new_message_rejects_empty (db : ServerDB)
    (content sender : Option String) (now : Nat)
    (h : pyFalsyStr content = true ∨ pyFalsyStr sender = true) :
    handle_new_message db content sender now
      = (db, PostResult.badRequest ("Missing required fields")) := by
  unfold handle_new_message
  rcases h with h | h <;> simp [h]

/-- Witness for C3 (amended): an empty content string is rejected and the
table is unchanged. -/
theorem handle_new_message_rejects_empty_witness :
    handle_new_message { nextId := 1, rows := [] } (some ("")) (some ("bob")) 7
      = ({ nextId := 1, rows := [] },
         PostResult.badRequest ("Missing required fields")) :=
  handle_new_message_rejects_empty { nextId := 1, rows := [] }
    (some ("")) (some ("bob")) 7 (Or.inl rfl)

/-- C5: `update_message_sync_status` on an id not present in the store is a
complete no-op (the state is unchanged, so no row is created) and raises no
error; it never changes the row count; and on a present id it stores the
given reference, sets the synchronized flag, and sets `updated_at`. -/
theorem update_sync_status_noop_or_update (σ : DBState) (message_id : Nat)
    (git_hash : String) (now : Nat) :
    ((∀ r ∈ σ.rows, r.id ≠ message_id) →
      update_message_sync_status σ message_id git_hash now = σ) ∧
    (update_message_sync_status σ message_id git_hash now).rows.length
      = σ.rows.length ∧
    (∀ r ∈ σ.rows, r.id = message_id →
      ({ r with git_hash := some git_hash, is_synchronized := true,
                updated_at := some now } : Message)
        ∈ (update_message_sync_status σ message_id git_hash now).rows) := by
  refine ⟨?_, ?_, ?_⟩
  · intro h
    unfold update_message_sync_status
    rw [map_sqlUpdateSyncRow_no_match message_id git_hash now σ.rows h]
  · simp [update_message_sync_status]
  · intro r hr hid
    unfold update_message_sync_status
    refine List.mem_map.mpr ⟨r, hr, ?_⟩
    simp [sqlUpdateSyncRow, hid]

/-- Witness for C5: updating id 2 in a store whose only row has id 1 leaves
the store exactly as it was. -/
theorem update_sync_status_noop_or_update_witness :
    update_message_sync_status
        { nextId := 2, rows := [newRow 1 ("hi") ("alice") none 0] } 2 ("h") 3
      = { nextId := 2, rows := [newRow 1 ("hi") ("alice") none 0] } :=
  (update_sync_status_noop_or_update
    { nextId := 2, rows := [newRow 1 ("hi") ("alice") none 0] } 2 ("h") 3).1
    (by decide)

/-- C10: `add_message` inserts the new row with `is_synchronized = false`
even when a non-null `git_hash` argument is supplied, so when the projection
fails the stored row carries a non-null external reference while
unsynchronized — the converse of the synchronized-implies-reference
invariant does not hold. -/
theorem add_message_inserts_unsynchronized (σ : DBState)
    (content sender : String) (gh : String) (now : Nat) :
    newRow σ.nextId content sender (some gh) now
      ∈ (add_message σ content sender (some gh) now none).1.rows ∧
    (newRow σ.nextId content sender (some gh) now).git_hash = some gh ∧
    (newRow σ.nextId content sender (some gh) now).is_synchronized = false := by
  refine ⟨?_, rfl, rfl⟩
  simp [add_message]

/-- C4: both store operations preserve the invariant that a synchronized row
has a non-null `git_hash`, and the flag is monotonic: every row present
before either operation still has a row with its id afterwards, and if it
was synchronized before it is synchronized afterwards. -/
theorem sync_flag_invariant_and_monotone (σ : DBState)
    (content sender : String) (gh : Option String) (now : Nat)
    (syncResult : Option String) (message_id : Nat) (git_hash : String)
    (now2 : Nat) (hInv : syncInv σ.rows) :
    (syncInv (add_message σ content sender gh now syncResult).1.rows ∧
      (∀ r ∈ σ.rows, r.is_synchronized = true →
        ∃ r' ∈ (add_message σ content sender gh now syncResult).1.rows,
          r'.id = r.id ∧ r'.is_synchronized = true)) ∧
    (syncInv (update_message_sync_status σ message_id git_hash now2).rows ∧
      (∀ r ∈ σ.rows, r.is_synchronized = true →
        ∃ r' ∈ (update_message_sync_status σ message_id git_hash now2).rows,
          r'.id = r.id ∧ r'.is_synchronized = true)) := by
  refine ⟨⟨?_, ?_⟩, ?_, ?_⟩
  · cases syncResult with
    | none =>
      intro r hr hsy
      simp only [add_message] at hr
      rcases List.mem_append.mp hr with h1 | h1
      · exact hInv r h1 hsy
      · rw [List.mem_singleton.mp h1] at hsy
        simp [newRow] at hsy
    | some ch =>
      intro r hr hsy
      simp only [add_message] at hr
      rcases List.mem_map.mp hr with ⟨r0, hr0, rfl⟩
      refine sqlUpdateSyncRow_inv _ _ _ _ ?_ hsy
      intro hs0
      rcases List.mem_append.mp hr0 with h1 | h1
      · exact hInv r0 h1 hs0
      · rw [List.mem_singleton.mp h1] at hs0
        simp [newRow] at hs0
  · intro r hr hsy
    cases syncResult with
    | none =>
      refine ⟨r, ?_, rfl, hsy⟩
      simp only [add_message]
      exact List.mem_append.mpr (Or.inl hr)
    | some ch =>
      refine ⟨sqlUpdateSyncRow σ.nextId ch now r, ?_,
        sqlUpdateSyncRow_id σ.nextId ch now r,
        sqlUpdateSyncRow_mono σ.nextId ch now r hsy⟩
      simp only [add_message]
      exact List.mem_map.mpr ⟨r, List.mem_append.mpr (Or.inl hr), rfl⟩
  · intro r hr hsy
    unfold update_message_sync_status at hr
    rcases List.mem_map.mp hr with ⟨r0, hr0, rfl⟩
    exact sqlUpdateSyncRow_inv _ _ _ _ (hInv r0 hr0) hsy
  · intro r hr hsy
    refine ⟨sqlUpdateSyncRow message_id git_hash now2 r, ?_,
      sqlUpdateSyncRow_id message_id git_hash now2 r,
      sqlUpdateSyncRow_mono message_id git_hash now2 r hsy⟩
    unfold update_message_sync_status
    exact List.mem_map.mpr ⟨r, hr, rfl⟩

/-- Witness for C4: instantiated on a store holding one synchronized row
with a non-null hash; the invariant still holds after a further successful
`add_message`. -/
theorem sync_flag_invariant_and_monotone_witness :
    syncInv (add_message
      { nextId := 2,
        rows := [{ newRow 1 ("hi") ("alice") none 0 with
                    git_hash := some ("aa"), is_synchronized := true }] }
      ("yo") ("bob") none 3 (some ("bb"))).1.rows :=
  (sync_flag_invariant_and_monotone
    { nextId := 2,
      rows := [{ newRow 1 ("hi") ("alice") none 0 with
                  git_hash := some ("aa"), is_synchronized := true }] }
    ("yo") ("bob") none 3 (some ("bb")) 1 ("cc") 4
    (by
      intro r hr hsy
      rw [List.mem_singleton.mp hr]
      simp)).1.1

/-- C6: `get_messages` returns rows sorted by timestamp descending, returns
at most `limit` of them, and is exactly the `limit`-sized window at `offset`
of the full descending ordering (which is a permutation of the table); and
after four inserts with strictly increasing timestamps, `limit=2, offset=0`
yields exactly the two most recent in descending order while
`limit=2, offset=2` yields the next two. -/
theorem get_messages_ordered_limited_offset :
    (∀ (σ : DBState) (limit offset : Nat),
      List.Sorted tsDesc (get_messages σ limit offset) ∧
      (get_messages σ limit offset).length ≤ limit ∧
      get_messages σ limit offset
        = ((σ.rows.insertionSort tsDesc).drop offset).take limit ∧
      (σ.rows.insertionSort tsDesc).Perm σ.rows) ∧
    get_messages dbDemo 2 0
      = [newRow 4 ("m4") ("dave") none 4, newRow 3 ("m3") ("carol") none 3] ∧
    get_messages dbDemo 2 2
      = [newRow 2 ("m2") ("bob") none 2, newRow 1 ("m1") ("alice") none 1] := by
  refine ⟨?_, by decide, by decide⟩
  intro σ limit offset
  refine ⟨?_, List.length_take_le limit _, rfl, List.perm_insertionSort tsDesc σ.rows⟩
  exact (List.sorted_insertionSort tsDesc σ.rows).sublist
    ((List.take_sublist _ _).trans (List.drop_sublist _ _))

/-- C7: the artifact filename follows the pattern
`<YYYYMMDD_HHMMSS>_<id>.json` built from the second-precision timestamp and
the id, and two messages with distinct ids get distinct filenames even when
their timestamps coincide. -/
theorem sync_filename_injective_in_id :
    (∀ m : SyncMessage,
      syncFilename m
        = strftimeYmdHms m.timestamp ++ ("_") ++ natStr m.id ++ (".json")) ∧
    ∀ m1 m2 : SyncMessage, m1.timestamp = m2.timestamp → m1.id ≠ m2.id →
      syncFilename m1 ≠ syncFilename m2 := by
  refine ⟨fun m => rfl, ?_⟩
  intro m1 m2 hts hid heq
  apply hid
  unfold syncFilename at heq
  rw [hts] at heq
  have hdata := congrArg String.data heq
  simp only [String.data_append, List.append_assoc] at hdata
  have h1 := List.append_cancel_left hdata
  have h2 := List.append_cancel_left h1
  have h3 := List.append_cancel_right h2
  exact natStr_inj m1.id m2.id (congrArg String.mk h3)

/-- Witness for C7: `msgA` and `msgB` share the timestamp
`2024-01-01 00:00:00` but have ids 1 and 2, and their filenames differ. -/
theorem sync_filename_injective_in_id_witness :
    syncFilename msgA ≠ syncFilename msgB :=
  sync_filename_injective_in_id.2 msgA msgB rfl (by decide)

/-- C9: the git step sequences of two `sync_message` calls on a shared
manager admit a concurrent schedule that is not one call followed by the
other: an interleaving of the two tagged stage/commit/rev-parse/push
sequences exists that differs from both serializations.  Nothing in
`sync_message` acquires a lock, so such schedules are not excluded by the
code, contradicting the claimed mutual exclusion. -/
theorem sync_git_sequences_admit_nonserial_interleaving :
    ∃ zs : List (Nat × List String),
      Interleaving (taggedInvocations demoDir msgA)
        (taggedInvocations demoDir msgB) zs ∧
      zs ≠ taggedInvocations demoDir msgA ++ taggedInvocations demoDir msgB ∧
      zs ≠ taggedInvocations demoDir msgB ++ taggedInvocations demoDir msgA := by
  refine ⟨[stepA 0, stepB 0, stepA 1, stepB 1, stepA 2, stepB 2, stepA 3, stepB 3],
    ?_, ?_, ?_⟩
  · exact .cons_left (.cons_right (.cons_left (.cons_right
      (.cons_left (.cons_right (.cons_left (.cons_right .nil)))))))
  · intro h
    have h1 : (2 : Nat) = 1 :=
      congrArg (fun l => ((l.getD 1 (0, ([] : List String))).1)) h
    exact absurd h1 (by decide)
  · intro h
    have h1 : (1 : Nat) = 2 :=
      congrArg (fun l => ((l.getD 0 (0, ([] : List String))).1)) h
    exact absurd h1 (by decide)

end PomChat
